import Mathlib

/-!
Verification of the Pong simulation core (paddles, ball, bot controller,
config resolver, per-tick update, event handling) against its specification.

The Python source is embedded shallowly:
* Python floats are modelled as exact rationals (ℚ); the claims under study
  are algebraic/ordering facts about the algorithms, not about IEEE rounding.
* Mutating methods become pure functions returning the updated record.
* Randomness (`random.choice`, `random.uniform`, `random.random`,
  `random.randint`) is modelled by explicit oracle parameters; hypotheses on
  an oracle value record the support of the corresponding distribution.
* `pygame.Rect` stores integers: float arguments are truncated toward zero,
  which `ratTrunc` models.  `colliderect` / `collidepoint` use pygame's
  strict/half-open comparison conventions.
-/

/-- Truncation toward zero: the conversion Python's `int()` and pygame's
`Rect` constructor apply to float coordinates.  For `q = num/den` with
`den > 0`, T-division of `num` by `den` truncates toward zero. -/
def ratTrunc (q : ℚ) : ℤ := Int.tdiv q.num (q.den : ℤ)

theorem ratTrunc_eq_floor {q : ℚ} (hq : 0 ≤ q) : ratTrunc q = ⌊q⌋ := by
  rw [Rat.floor_def, ratTrunc]
  exact Int.tdiv_eq_ediv (Rat.num_nonneg.mpr hq) (Int.natCast_nonneg q.den)

theorem ratTrunc_eq_of {q : ℚ} {n : ℤ} (h0 : 0 ≤ q) (h1 : (n : ℚ) ≤ q)
    (h2 : q < n + 1) : ratTrunc q = n := by
  rw [ratTrunc_eq_floor h0]
  exact Int.floor_eq_iff.mpr ⟨h1, h2⟩

@[simp] theorem ratTrunc_ofNat (n : ℕ) [n.AtLeastTwo] :
    ratTrunc (no_index (OfNat.ofNat n) : ℚ) = OfNat.ofNat n := by
  rw [ratTrunc_eq_floor (Nat.ofNat_nonneg n)]
  exact Int.floor_ofNat n

@[simp] theorem ratTrunc_zero : ratTrunc 0 = 0 := by
  rw [ratTrunc_eq_floor le_rfl]; exact Int.floor_zero

@[simp] theorem ratTrunc_one : ratTrunc 1 = 1 := by
  rw [ratTrunc_eq_floor zero_le_one]; exact Int.floor_one

/-- An integer rectangle, as stored by `pygame.Rect`. -/
structure PgRect where
  x : ℤ
  y : ℤ
  w : ℤ
  h : ℤ
deriving DecidableEq, Repr

/-- `pygame.Rect(x, y, w, h)` with float arguments: each is truncated. -/
def mkRect (x y w h : ℚ) : PgRect :=
  ⟨ratTrunc x, ratTrunc y, ratTrunc w, ratTrunc h⟩

/-- `pygame.Rect.collidepoint`: a point on the right or bottom edge is NOT
inside the rectangle; a point on the left or top edge is. -/
def PgRect.collidepoint (r : PgRect) (px py : ℤ) : Bool :=
  decide (r.x ≤ px) && decide (px < r.x + r.w) &&
  decide (r.y ≤ py) && decide (py < r.y + r.h)

/-- `pygame.Rect.colliderect`: strict overlap test
`A.x < B.x + B.w ∧ A.y < B.y + B.h ∧ A.x + A.w > B.x ∧ A.y + A.h > B.y`. -/
def PgRect.colliderect (a b : PgRect) : Bool :=
  decide (a.x < b.x + b.w) && decide (a.y < b.y + b.h) &&
  decide (a.x + a.w > b.x) && decide (a.y + a.h > b.y)

/-- `Paddle` (game_objects.py).  `x, y, width, height` come from the
`GameObject` base class; the color field is rendering-only and omitted. -/
structure Paddle where
  x : ℚ
  y : ℚ
  width : ℚ
  height : ℚ
  speed : ℚ
  velocity : ℚ
  target_y : ℚ
deriving DecidableEq, Repr

/-- `Paddle.__init__`: velocity starts at 0, `target_y` starts at `y`. -/
def Paddle.init (x y width height speed : ℚ) : Paddle :=
  { x := x, y := y, width := width, height := height, speed := speed,
    velocity := 0, target_y := y }

/-- `Paddle.move(direction, screen_height)`: sets `velocity = direction*speed`,
advances `y`, then clamps: `if y < 0: y = 0 elif y+height > H: y = H-height`. -/
def Paddle.move (p : Paddle) (direction : ℤ) (screen_height : ℤ) : Paddle :=
  let v : ℚ := (direction : ℚ) * p.speed
  let y1 := p.y + v
  let y2 := if y1 < 0 then 0
            else if y1 + p.height > (screen_height : ℚ) then (screen_height : ℚ) - p.height
            else y1
  { p with velocity := v, y := y2 }

/-- `Paddle.smooth_move_to(target_y, smoothing, screen_height)`:
stores the target, moves `y += (target - y) * smoothing`, then clamps
exactly as `move` does. -/
def Paddle.smooth_move_to (p : Paddle) (target_y smoothing : ℚ)
    (screen_height : ℤ) : Paddle :=
  let diff := target_y - p.y
  let y1 := p.y + diff * smoothing
  let y2 := if y1 < 0 then 0
            else if y1 + p.height > (screen_height : ℚ) then (screen_height : ℚ) - p.height
            else y1
  { p with target_y := target_y, y := y2 }

/-- `Paddle.get_rect()`: `pygame.Rect(x, y, width, height)`. -/
def Paddle.get_rect (p : Paddle) : PgRect :=
  mkRect p.x p.y p.width p.height

/-- `Ball` (game_objects.py).  `width`/`height` are the base-class fields,
set to `radius * 2` by `__init__`; color omitted (rendering-only). -/
structure Ball where
  x : ℚ
  y : ℚ
  width : ℚ
  height : ℚ
  radius : ℚ
  base_speed : ℚ
  velocity_x : ℚ
  velocity_y : ℚ
  initial_x : ℚ
  initial_y : ℚ
deriving DecidableEq, Repr

/-- `Ball.__init__(x, y, radius, speed)`. -/
def Ball.init (x y radius speed : ℚ) : Ball :=
  { x := x, y := y, width := radius * 2, height := radius * 2,
    radius := radius, base_speed := speed, velocity_x := 0, velocity_y := 0,
    initial_x := x, initial_y := y }

/-- Oracle for the random draws made by `Ball.reset_position`:
`rdir` models `random.choice([-1, 1])` picking the direction,
`rsign` models `random.choice([-1, 1])` for the vertical sign,
`runif` models `random.uniform(0.5, 1.0)`. -/
structure ResetOracle where
  rdir : ℤ
  rsign : ℤ
  runif : ℚ
deriving DecidableEq, Repr

/-- `Ball.reset_position(direction=0, target_y=None)`: snap to the initial
("home") position; if `direction == 0` replace it by the oracle's random
choice; set `velocity_x = base_speed * direction`; aim `velocity_y` at the
target when one is given, otherwise use the random vertical speed. -/
def Ball.reset_position (b : Ball) (direction : ℤ) (target_y : Option ℚ)
    (o : ResetOracle) : Ball :=
  let d : ℤ := if direction = 0 then o.rdir else direction
  let vx := b.base_speed * (d : ℚ)
  let vy := match target_y with
    | some t =>
      -- y_diff = target_y - self.y, taken after self.y = initial_y
      let y_diff := t - b.initial_y
      y_diff / |b.initial_x - (if d < 0 then 0 else b.initial_x * 2)|
        * b.base_speed * 0.6
    | none => b.base_speed * (o.rsign : ℚ) * o.runif
  { b with x := b.initial_x, y := b.initial_y, velocity_x := vx, velocity_y := vy }

/-- `Ball.move(screen_width, screen_height)`: integrate position by velocity;
on touching/crossing the top (`y - r <= 0`) or bottom (`y + r >= H`) wall,
negate `velocity_y` and clamp `y` to the wall.  (`screen_width` is unused in
the source as well.) -/
def Ball.move (b : Ball) (screen_width screen_height : ℤ) : Ball :=
  let x1 := b.x + b.velocity_x
  let y1 := b.y + b.velocity_y
  if y1 - b.radius ≤ 0 ∨ y1 + b.radius ≥ (screen_height : ℚ) then
    { b with x := x1,
             y := if y1 - b.radius ≤ 0 then b.radius else (screen_height : ℚ) - b.radius,
             velocity_y := -b.velocity_y }
  else
    { b with x := x1, y := y1 }

/-- `Ball.bounce_off_paddle(paddle)`: negate `velocity_x` and overwrite
`velocity_y = hit_pos * base_speed * 0.8` where
`hit_pos = (y - paddle_center) / (paddle.height / 2)`. -/
def Ball.bounce_off_paddle (b : Ball) (p : Paddle) : Ball :=
  let paddle_center := p.y + p.height / 2
  let hit_pos := (b.y - paddle_center) / (p.height / 2)
  { b with velocity_x := -b.velocity_x,
           velocity_y := hit_pos * b.base_speed * 0.8 }

/-- `Ball.check_paddle_collision(paddle)`: rectangle-overlap test between the
ball's enclosing square (as a `pygame.Rect`, hence truncated to integers)
and the paddle's rect. -/
def Ball.check_paddle_collision (b : Ball) (p : Paddle) : Bool :=
  (mkRect (b.x - b.radius) (b.y - b.radius) (b.radius * 2) (b.radius * 2)).colliderect
    p.get_rect

/-- C1: For both paddles and for every call to `Paddle.move` or
`Paddle.smooth_move_to` with a paddle whose height is at most the viewport
height, after the call the paddle satisfies
`0 ≤ y ≤ viewportHeight - height`; this invariant holds at all ticks. -/
theorem paddle_moves_preserve_bounds (p : Paddle) (direction : ℤ)
    (target_y smoothing : ℚ) (screen_height : ℤ)
    (hh : p.height ≤ (screen_height : ℚ)) :
    (0 ≤ (p.move direction screen_height).y ∧
      (p.move direction screen_height).y ≤
        (screen_height : ℚ) - (p.move direction screen_height).height) ∧
    (0 ≤ (p.smooth_move_to target_y smoothing screen_height).y ∧
      (p.smooth_move_to target_y smoothing screen_height).y ≤
        (screen_height : ℚ) - (p.smooth_move_to target_y smoothing screen_height).height) := by
  constructor
  · simp only [Paddle.move]
    split_ifs with h1 h2 <;> constructor <;> linarith
  · simp only [Paddle.smooth_move_to]
    split_ifs with h1 h2 <;> constructor <;> linarith

theorem paddle_moves_preserve_bounds_witness :
    (Paddle.init 30 250 15 100 7).height ≤ ((600 : ℤ) : ℚ) ∧
    0 ≤ ((Paddle.init 30 250 15 100 7).move 1 600).y := by
  refine ⟨by norm_num [Paddle.init], ?_⟩
  exact (paddle_moves_preserve_bounds (Paddle.init 30 250 15 100 7) 1 40 (1/2) 600
    (by norm_num [Paddle.init])).1.1

/-- Concrete corner-hit counterexample data for C2: the ball overlaps the
paddle's top-left corner region, so its center is above the paddle's top. -/
def c2Ball : Ball :=
  { x := 15, y := 95, width := 20, height := 20, radius := 10, base_speed := 5,
    velocity_x := -3, velocity_y := 2, initial_x := 400, initial_y := 300 }

def c2Paddle : Paddle :=
  { x := 10, y := 100, width := 10, height := 100, speed := 5,
    velocity := 0, target_y := 100 }

/-- C2 counterexample: a colliding ball with nonzero `velocity_x` for which
`bounce_off_paddle` produces `|velocity_y| = 4.4 > 4 = 0.8 * base_speed`. -/
theorem bounce_velocity_bound_counterexample :
    c2Ball.check_paddle_collision c2Paddle = true ∧
    c2Ball.velocity_x ≠ 0 ∧
    ¬ |(c2Ball.bounce_off_paddle c2Paddle).velocity_y| ≤ 0.8 * c2Ball.base_speed := by
  refine ⟨?_, ?_, ?_⟩
  · norm_num [Ball.check_paddle_collision, PgRect.colliderect, mkRect,
      Paddle.get_rect, c2Ball, c2Paddle, Bool.and_eq_true, decide_eq_true_eq]
  · norm_num [c2Ball]
  · have h : (c2Ball.bounce_off_paddle c2Paddle).velocity_y = -(22/5 : ℚ) := by
      norm_num [Ball.bounce_off_paddle, c2Ball, c2Paddle]
    rw [h, abs_neg, abs_of_nonneg (by norm_num : (0:ℚ) ≤ 22/5)]
    norm_num [c2Ball]

/-- C2 (amended): if the ball collides with the paddle and `velocity_x ≠ 0`,
then after `bounce_off_paddle` the sign of `velocity_x` flips, `velocity_y`
equals `((y - paddleCenterY)/(paddleHeight/2)) * baseSpeed * 0.8`
independently of the incoming vertical velocity, and — whenever the ball's
center lies within the paddle's vertical extent — `|velocity_y| ≤ 0.8 *
baseSpeed` (on a corner overlap the bound can be exceeded). -/
theorem bounce_off_paddle_spec (b : Ball) (p : Paddle)
    (hcol : b.check_paddle_collision p = true) (hvx : b.velocity_x ≠ 0)
    (hbs : 0 ≤ b.base_speed) (hph : 0 < p.height) :
    (b.bounce_off_paddle p).velocity_x = -b.velocity_x ∧
    (b.bounce_off_paddle p).velocity_y =
      (b.y - (p.y + p.height / 2)) / (p.height / 2) * b.base_speed * 0.8 ∧
    (p.y ≤ b.y → b.y ≤ p.y + p.height →
      |(b.bounce_off_paddle p).velocity_y| ≤ 0.8 * b.base_speed) := by
  refine ⟨rfl, rfl, ?_⟩
  intro hy1 hy2
  have h2pos : 0 < p.height / 2 := by linarith
  have habs : |b.y - (p.y + p.height / 2)| ≤ p.height / 2 :=
    abs_le.mpr ⟨by linarith, by linarith⟩
  have hcalc : |(b.bounce_off_paddle p).velocity_y| =
      |b.y - (p.y + p.height / 2)| / (p.height / 2) * b.base_speed * 0.8 := by
    show |(b.y - (p.y + p.height / 2)) / (p.height / 2) * b.base_speed * 0.8| = _
    rw [abs_mul, abs_mul, abs_div, abs_of_pos h2pos, abs_of_nonneg hbs]
    norm_num
  rw [hcalc]
  have hle1 : |b.y - (p.y + p.height / 2)| / (p.height / 2) ≤ 1 :=
    (div_le_one h2pos).mpr habs
  calc |b.y - (p.y + p.height / 2)| / (p.height / 2) * b.base_speed * 0.8
      ≤ 1 * b.base_speed * 0.8 := by
        apply mul_le_mul_of_nonneg_right _ (by norm_num)
        exact mul_le_mul_of_nonneg_right hle1 hbs
    _ = 0.8 * b.base_speed := by ring

theorem bounce_off_paddle_spec_witness :
    (c2Ball.bounce_off_paddle c2Paddle).velocity_x = -c2Ball.velocity_x := by
  exact (bounce_off_paddle_spec c2Ball c2Paddle
    (by norm_num [Ball.check_paddle_collision, PgRect.colliderect, mkRect,
      Paddle.get_rect, c2Ball, c2Paddle, Bool.and_eq_true, decide_eq_true_eq])
    (by norm_num [c2Ball])
    (by norm_num [c2Ball]) (by norm_num [c2Paddle])).1

/-- C6: after `reset_position` with `direction ∈ {-1, 0, 1}` (0 meaning a
random ±1 is drawn) and nonnegative base speed, the ball sits at its home
position and `|velocity_x| = base_speed` exactly. -/
theorem reset_position_home_and_speed (b : Ball) (direction : ℤ)
    (target_y : Option ℚ) (o : ResetOracle)
    (hd : direction = -1 ∨ direction = 0 ∨ direction = 1)
    (hrd : o.rdir = -1 ∨ o.rdir = 1) (hbs : 0 ≤ b.base_speed) :
    (b.reset_position direction target_y o).x = b.initial_x ∧
    (b.reset_position direction target_y o).y = b.initial_y ∧
    |(b.reset_position direction target_y o).velocity_x| = b.base_speed := by
  refine ⟨rfl, rfl, ?_⟩
  show |b.base_speed * ((if direction = 0 then o.rdir else direction : ℤ) : ℚ)| = b.base_speed
  rcases hd with hd | hd | hd
  · rw [hd]; norm_num [abs_of_nonneg hbs]
  · rw [hd]
    rcases hrd with hr | hr <;> rw [hr] <;> norm_num [abs_of_nonneg hbs]
  · rw [hd]; norm_num [abs_of_nonneg hbs]

theorem reset_position_home_and_speed_witness :
    ((Ball.init 400 300 8 5).reset_position 0 none ⟨-1, 1, 0.75⟩).x =
      (Ball.init 400 300 8 5).initial_x ∧
    |((Ball.init 400 300 8 5).reset_position 0 none ⟨-1, 1, 0.75⟩).velocity_x| =
      (Ball.init 400 300 8 5).base_speed := by
  have h := reset_position_home_and_speed (Ball.init 400 300 8 5) 0 none
    ⟨-1, 1, 0.75⟩ (Or.inr (Or.inl rfl)) (Or.inl rfl) (by norm_num [Ball.init])
  exact ⟨h.1, h.2.2⟩

/-- C10: `Ball.move` leaves `velocity_x`, `radius`, `base_speed`,
`initial_x`, `initial_y` (and the base-class `width`/`height`) unchanged and
advances `x` by exactly `velocity_x`; only `y` and `velocity_y` may
additionally change. -/
theorem ball_move_frame (b : Ball) (screen_width screen_height : ℤ) :
    (b.move screen_width screen_height).velocity_x = b.velocity_x ∧
    (b.move screen_width screen_height).radius = b.radius ∧
    (b.move screen_width screen_height).base_speed = b.base_speed ∧
    (b.move screen_width screen_height).initial_x = b.initial_x ∧
    (b.move screen_width screen_height).initial_y = b.initial_y ∧
    (b.move screen_width screen_height).width = b.width ∧
    (b.move screen_width screen_height).height = b.height ∧
    (b.move screen_width screen_height).x = b.x + b.velocity_x := by
  simp only [Ball.move]
  split_ifs <;> simp

/-- `Difficulty` enum (game_objects.py). -/
inductive Difficulty
  | VERY_EASY
  | EASY
  | MEDIUM
  | HARD
deriving DecidableEq, Repr

/-- One entry of `GameConfig.DIFFICULTY_SETTINGS`. -/
structure DifficultySettings where
  ball_speed : ℚ
  bot_speed : ℚ
deriving DecidableEq, Repr

def GameConfig.MIN_WIDTH : ℤ := 600

def GameConfig.MIN_HEIGHT : ℤ := 400

def GameConfig.WINNING_SCORE : ℕ := 10

def GameConfig.RESET_DELAY_MS : ℤ := 2000

/-- The mutable fields `GameConfig.update_screen_size` writes.  The class
constants (minimums, delays, the fixed proportion constants) are kept as
separate definitions / inlined exact rationals. -/
structure GameConfig where
  SCREEN_WIDTH : ℤ
  SCREEN_HEIGHT : ℤ
  PADDLE_WIDTH : ℤ
  PADDLE_HEIGHT : ℤ
  PADDLE_OFFSET : ℤ
  PLAYER_SPEED : ℚ
  BALL_RADIUS : ℤ
  SCORE_FONT_SIZE : ℤ
  SCORE_Y_POSITION : ℤ
  SCORE_X_OFFSET : ℤ
  BUTTON_WIDTH : ℤ
  BUTTON_HEIGHT : ℤ
  BUTTON_SPACING : ℤ
  MENU_FONT_SIZE : ℤ
  BUTTON_FONT_SIZE : ℤ
  PAUSE_FONT_SIZE : ℤ
deriving DecidableEq, Repr

/-- `GameConfig.update_screen_size(width, height)`: clamp to the minimums,
then recompute every derived field from the clamped dimensions.  Python's
`int(...)` on a nonnegative product is truncation, i.e. `ratTrunc`.  The
fixed proportion constants (0.01875 of width for the paddle width, 0.1667 of
height for the paddle height, and so on) are inlined as exact rationals. -/
def GameConfig.update_screen_size (width height : ℤ) : GameConfig :=
  let W : ℤ := max width GameConfig.MIN_WIDTH
  let H : ℤ := max height GameConfig.MIN_HEIGHT
  { SCREEN_WIDTH := W
    SCREEN_HEIGHT := H
    PADDLE_WIDTH := ratTrunc ((W : ℚ) * 0.01875)
    PADDLE_HEIGHT := ratTrunc ((H : ℚ) * 0.1667)
    PADDLE_OFFSET := ratTrunc ((W : ℚ) * 0.0375)
    PLAYER_SPEED := (W : ℚ) * 0.00875
    BALL_RADIUS := ratTrunc ((W : ℚ) * 0.01)
    SCORE_FONT_SIZE := ratTrunc ((W : ℚ) * 0.09)
    SCORE_Y_POSITION := ratTrunc ((H : ℚ) * 0.167)
    SCORE_X_OFFSET := ratTrunc ((W : ℚ) * 0.125)
    BUTTON_WIDTH := ratTrunc ((W : ℚ) * 0.25)
    BUTTON_HEIGHT := ratTrunc ((H : ℚ) * 0.1)
    BUTTON_SPACING := ratTrunc ((H : ℚ) * 0.05)
    MENU_FONT_SIZE := ratTrunc ((W : ℚ) * 0.06)
    BUTTON_FONT_SIZE := ratTrunc ((W : ℚ) * 0.04)
    PAUSE_FONT_SIZE := ratTrunc ((W : ℚ) * 0.08) }

/-- `GameConfig.__init__(width=800, height=600)` only calls
`update_screen_size`. -/
def GameConfig.initConfig (width height : ℤ) : GameConfig :=
  GameConfig.update_screen_size width height

/-- `GameConfig.get_difficulty_settings`: a dictionary lookup whose default
(for a key that is not present, e.g. `None`) is the EASY entry. -/
def GameConfig.get_difficulty_settings :
    Option Difficulty → DifficultySettings
  | some .VERY_EASY => ⟨2.2, 1.5⟩
  | some .EASY => ⟨3.5, 2.2⟩
  | some .MEDIUM => ⟨6.0, 4.0⟩
  | some .HARD => ⟨8.4, 6.5⟩
  | none => ⟨3.5, 2.2⟩

/-- `GameConfig.scale_speed(base_speed) = base_speed * (SCREEN_WIDTH / 800)`. -/
def GameConfig.scale_speed (c : GameConfig) (base_speed : ℚ) : ℚ :=
  let scale_factor := (c.SCREEN_WIDTH : ℚ) / 800
  base_speed * scale_factor

/-- C8: the config resolver clamps the dimensions to the minimums 600×400,
every derived field is a pure function of the clamped dimensions (resolving
again at the clamped dimensions reproduces the same config, so resolving
twice with the same inputs is idempotent), and
`scale_speed(base) = base * width / 800` for the clamped width. -/
theorem config_resolver_clamps_idem_scale (width height : ℤ) (base_speed : ℚ) :
    (GameConfig.update_screen_size width height).SCREEN_WIDTH = max width 600 ∧
    (GameConfig.update_screen_size width height).SCREEN_HEIGHT = max height 400 ∧
    GameConfig.update_screen_size
        (GameConfig.update_screen_size width height).SCREEN_WIDTH
        (GameConfig.update_screen_size width height).SCREEN_HEIGHT =
      GameConfig.update_screen_size width height ∧
    (GameConfig.update_screen_size width height).scale_speed base_speed =
      base_speed * ((max width 600 : ℤ) : ℚ) / 800 := by
  have h1 : max (max width 600) 600 = max width 600 := by rw [max_assoc, max_self]
  have h2 : max (max height 400) 400 = max height 400 := by rw [max_assoc, max_self]
  refine ⟨rfl, rfl, ?_, ?_⟩
  · show GameConfig.update_screen_size (max width 600) (max height 400) = _
    simp only [GameConfig.update_screen_size, GameConfig.MIN_WIDTH,
      GameConfig.MIN_HEIGHT, h1, h2]
  · show base_speed * (((max width 600 : ℤ) : ℚ) / 800) = _
    ring

/-- `BotController` state (ponggame/game_objects.py). -/
structure BotController where
  difficulty : Difficulty
  smoothing_factor : ℚ
  accuracy : ℚ
  reaction_delay : ℤ
  max_reaction_delay : ℤ
deriving DecidableEq, Repr

/-- `BotController._get_smoothing_factor` (the dictionary default 0.04 is
unreachable: the enum match is exhaustive). -/
def BotController.get_smoothing_factor : Difficulty → ℚ
  | .VERY_EASY => 0.025
  | .EASY => 0.04
  | .MEDIUM => 0.08
  | .HARD => 0.14

/-- `BotController._get_accuracy`. -/
def BotController.get_accuracy : Difficulty → ℚ
  | .VERY_EASY => 0.45
  | .EASY => 0.65
  | .MEDIUM => 0.85
  | .HARD => 0.97

/-- `BotController._get_max_delay`. -/
def BotController.get_max_delay : Difficulty → ℤ
  | .VERY_EASY => 22
  | .EASY => 14
  | .MEDIUM => 6
  | .HARD => 1

/-- `BotController.__init__(difficulty)`. -/
def BotController.initBot (difficulty : Difficulty) : BotController :=
  { difficulty := difficulty
    smoothing_factor := BotController.get_smoothing_factor difficulty
    accuracy := BotController.get_accuracy difficulty
    reaction_delay := 0
    max_reaction_delay := BotController.get_max_delay difficulty }

/-- Oracle for the random draws in `BotController.update`:
`rfloat` models `random.random()` (the miss test),
`rerr` models `random.uniform(-error_range, error_range)` where
`error_range` is the difficulty-specific constant 60/30/16/7,
`rdelay` models `random.randint(0, max_reaction_delay)`. -/
structure BotOracle where
  rfloat : ℚ
  rerr : ℚ
  rdelay : ℤ
deriving DecidableEq, Repr

/-- `BotController.update(paddle, ball, screen_height)`: while a reaction
delay is pending, decrement it and keep smoothly approaching the stored
target; otherwise aim at `ball.y - paddle.height/2`, possibly perturbed,
move smoothly toward the new target, and draw a fresh reaction delay. -/
def BotController.update (c : BotController) (paddle : Paddle) (ball : Ball)
    (screen_height : ℤ) (o : BotOracle) : BotController × Paddle :=
  if c.reaction_delay > 0 then
    ({ c with reaction_delay := c.reaction_delay - 1 },
     paddle.smooth_move_to paddle.target_y c.smoothing_factor screen_height)
  else
    let target_y := ball.y - paddle.height / 2
    let target_y := if o.rfloat > c.accuracy then target_y + o.rerr else target_y
    ({ c with reaction_delay := o.rdelay },
     paddle.smooth_move_to target_y c.smoothing_factor screen_height)

/-- C9: while the pending reaction delay is positive, `BotController.update`
only decrements it and keeps smoothly approaching the previous stored target
(no new target is computed, no new delay drawn); when the delay has reached
zero it aims at the ball's position (possibly perturbed by the aim-error
draw), moves the paddle toward that fresh target, and stores a new reaction
delay drawn from `[0, max_reaction_delay]` (the oracle hypotheses record the
support of `random.randint(0, max_delay)`). -/
theorem bot_reaction_delay_behavior (c : BotController) (paddle : Paddle)
    (ball : Ball) (screen_height : ℤ) (o : BotOracle)
    (h0 : 0 ≤ o.rdelay) (hmax : o.rdelay ≤ c.max_reaction_delay) :
    (0 < c.reaction_delay →
      c.update paddle ball screen_height o =
        ({ c with reaction_delay := c.reaction_delay - 1 },
         paddle.smooth_move_to paddle.target_y c.smoothing_factor screen_height)) ∧
    (c.reaction_delay ≤ 0 →
      (∃ t, (t = ball.y - paddle.height / 2 ∨
             t = ball.y - paddle.height / 2 + o.rerr) ∧
        c.update paddle ball screen_height o =
          ({ c with reaction_delay := o.rdelay },
           paddle.smooth_move_to t c.smoothing_factor screen_height)) ∧
      0 ≤ (c.update paddle ball screen_height o).1.reaction_delay ∧
      (c.update paddle ball screen_height o).1.reaction_delay ≤
        c.max_reaction_delay) := by
  constructor
  · intro h
    simp only [BotController.update, if_pos h]
  · intro h
    have hnot : ¬ c.reaction_delay > 0 := not_lt.mpr h
    refine ⟨?_, ?_, ?_⟩
    · by_cases hp : o.rfloat > c.accuracy
      · exact ⟨_, Or.inr rfl,
          by simp only [BotController.update, if_neg hnot, if_pos hp]⟩
      · exact ⟨_, Or.inl rfl,
          by simp only [BotController.update, if_neg hnot, if_neg hp]⟩
    · simp only [BotController.update, if_neg hnot]
      exact h0
    · simp only [BotController.update, if_neg hnot]
      exact hmax

def c9Bot : BotController :=
  { BotController.initBot Difficulty.EASY with reaction_delay := 3 }

def c9Oracle : BotOracle := ⟨0.5, 2, 7⟩

theorem bot_reaction_delay_behavior_witness :
    c9Bot.update (Paddle.init 755 250 15 100 4) (Ball.init 400 300 8 5) 600
        c9Oracle =
      ({ c9Bot with reaction_delay := c9Bot.reaction_delay - 1 },
       (Paddle.init 755 250 15 100 4).smooth_move_to
         (Paddle.init 755 250 15 100 4).target_y c9Bot.smoothing_factor 600) := by
  exact (bot_reaction_delay_behavior c9Bot (Paddle.init 755 250 15 100 4)
    (Ball.init 400 300 8 5) 600 c9Oracle (by norm_num [c9Oracle])
    (by norm_num [c9Oracle, c9Bot, BotController.initBot,
      BotController.get_max_delay])).1 (by norm_num [c9Bot])

/-- `GameState` enum (game_state.py). -/
inductive GameState
  | MENU
  | PLAYING
  | PAUSED
  | GAME_OVER
deriving DecidableEq, Repr

/-- Which side scored / won.  The source uses the strings
"player"/"bot" (last scorer) and "Player"/"Bot" (winner label). -/
inductive Side
  | player
  | bot
deriving DecidableEq, Repr

/-- `ScoreManager` (game_state.py). -/
structure ScoreManager where
  player_score : ℕ
  bot_score : ℕ
  winning_score : ℕ
deriving DecidableEq, Repr

/-- `ScoreManager.__init__(winning_score)`. -/
def ScoreManager.initScores (winning_score : ℕ) : ScoreManager :=
  ⟨0, 0, winning_score⟩

def ScoreManager.increment_player_score (s : ScoreManager) : ScoreManager :=
  { s with player_score := s.player_score + 1 }

def ScoreManager.increment_bot_score (s : ScoreManager) : ScoreManager :=
  { s with bot_score := s.bot_score + 1 }

def ScoreManager.reset (s : ScoreManager) : ScoreManager :=
  { s with player_score := 0, bot_score := 0 }

/-- `ScoreManager.check_winner`: the player is checked first. -/
def ScoreManager.check_winner (s : ScoreManager) : Option Side :=
  if s.player_score ≥ s.winning_score then some Side.player
  else if s.bot_score ≥ s.winning_score then some Side.bot
  else none

/-- The pressed-keys set `self.keys_pressed`: the only elements the code
ever inserts are the strings "up" and "down", so the set is modelled by its
two membership flags. -/
structure PressedKeys where
  up : Bool
  down : Bool
deriving DecidableEq, Repr

/-- The keyboard keys `handle_input` distinguishes; every other key behaves
alike and is collapsed into `K_other`. -/
inductive Key
  | K_w
  | K_UP
  | K_s
  | K_DOWN
  | K_ESCAPE
  | K_other
deriving DecidableEq, Repr

/-- The pygame events `handle_input` distinguishes.  `MOUSEBUTTONDOWN`
carries the pointer position that `pygame.mouse.get_pos()` returns at
handling time. -/
inductive Event
  | QUIT
  | VIDEORESIZE (w h : ℤ)
  | MOUSEBUTTONDOWN (mx my : ℤ)
  | KEYDOWN (key : Key)
  | KEYUP (key : Key)
deriving DecidableEq, Repr

/-- The `PongGame` fields the simulation core reads or writes (game.py).
Entity fields are `Option`s mirroring the `Optional[...] = None` attributes;
`screen_w`/`screen_h` are the dimensions of the current display surface
`self.screen`; the `pause_buttons` dictionary is represented by its two
possible entries. -/
structure PongGame where
  config : GameConfig
  screen_w : ℤ
  screen_h : ℤ
  state : GameState
  score_manager : ScoreManager
  player_paddle : Option Paddle
  bot_paddle : Option Paddle
  ball : Option Ball
  bot_controller : Option BotController
  keys_pressed : PressedKeys
  current_difficulty : Option Difficulty
  menu_buttons : List (PgRect × Difficulty)
  pause_resume_button : Option PgRect
  pause_new_game_button : Option PgRect
  play_again_button : Option PgRect
  winner : Option Side
  reset_timer : ℤ
  waiting_for_reset : Bool
  last_scorer : Option Side
deriving DecidableEq, Repr

/-- The player-direction computation inside `PongGame.update`:
`direction = 0; if 'up' in keys: direction = -1 elif 'down' in keys:
direction = 1`. -/
def playerDirection (keys : PressedKeys) : ℤ :=
  if keys.up then -1 else if keys.down then 1 else 0

/-- `PongGame.initialize_game_objects(difficulty)` (game.py): build both
paddles, the ball (immediately `reset_position(0)`, consuming the oracle),
the bot controller; reset scores and the post-score-wait bookkeeping.
Python's `//` on the nonnegative config integers is `Int.fdiv`. -/
def PongGame.init_game_objects (g : PongGame) (difficulty : Difficulty)
    (o : ResetOracle) : PongGame :=
  let settings := GameConfig.get_difficulty_settings (some difficulty)
  let ball_speed := g.config.scale_speed settings.ball_speed
  let bot_speed := g.config.scale_speed settings.bot_speed
  let center_y : ℤ :=
    Int.fdiv g.config.SCREEN_HEIGHT 2 - Int.fdiv g.config.PADDLE_HEIGHT 2
  let player_paddle := Paddle.init (g.config.PADDLE_OFFSET : ℚ) (center_y : ℚ)
    (g.config.PADDLE_WIDTH : ℚ) (g.config.PADDLE_HEIGHT : ℚ) g.config.PLAYER_SPEED
  let bot_paddle := Paddle.init
    ((g.config.SCREEN_WIDTH - g.config.PADDLE_OFFSET - g.config.PADDLE_WIDTH : ℤ) : ℚ)
    (center_y : ℚ) (g.config.PADDLE_WIDTH : ℚ) (g.config.PADDLE_HEIGHT : ℚ) bot_speed
  let ball := (Ball.init ((Int.fdiv g.config.SCREEN_WIDTH 2 : ℤ) : ℚ)
    ((Int.fdiv g.config.SCREEN_HEIGHT 2 : ℤ) : ℚ) (g.config.BALL_RADIUS : ℚ)
    ball_speed).reset_position 0 none o
  { g with
      current_difficulty := some difficulty
      player_paddle := some player_paddle
      bot_paddle := some bot_paddle
      ball := some ball
      bot_controller := some (BotController.initBot difficulty)
      score_manager := g.score_manager.reset
      waiting_for_reset := false
      reset_timer := 0
      last_scorer := none }

/-- `PongGame.resize_game_objects` (game.py): recompute entity geometry after
a viewport change.  Faithful to the source: the "relative positions" are
computed against `self.screen`, which the resize handler has ALREADY set to
the new surface size, and the current-velocity scale factor is
`scale_speed(s)/s = SCREEN_WIDTH/800`, not the new/old speed ratio. -/
def PongGame.resize_game_objects (g : PongGame) : PongGame :=
  match g.player_paddle, g.bot_paddle, g.ball with
  | some pp, some bp, some ball =>
    let player_yr := pp.y / (g.screen_h : ℚ)
    let bot_yr := bp.y / (g.screen_h : ℚ)
    let ball_xr := ball.x / (g.screen_w : ℚ)
    let ball_yr := ball.y / (g.screen_h : ℚ)
    let settings := GameConfig.get_difficulty_settings g.current_difficulty
    let ball_speed := g.config.scale_speed settings.ball_speed
    let bot_speed := g.config.scale_speed settings.bot_speed
    let pp' := { pp with
      x := (g.config.PADDLE_OFFSET : ℚ)
      y := player_yr * (g.config.SCREEN_HEIGHT : ℚ)
      width := (g.config.PADDLE_WIDTH : ℚ)
      height := (g.config.PADDLE_HEIGHT : ℚ)
      speed := g.config.PLAYER_SPEED }
    let bp' := { bp with
      x := ((g.config.SCREEN_WIDTH - g.config.PADDLE_OFFSET - g.config.PADDLE_WIDTH : ℤ) : ℚ)
      y := bot_yr * (g.config.SCREEN_HEIGHT : ℚ)
      width := (g.config.PADDLE_WIDTH : ℚ)
      height := (g.config.PADDLE_HEIGHT : ℚ)
      speed := bot_speed }
    let speed_scale := ball_speed / settings.ball_speed
    let ball' := { ball with
      x := ball_xr * (g.config.SCREEN_WIDTH : ℚ)
      y := ball_yr * (g.config.SCREEN_HEIGHT : ℚ)
      radius := (g.config.BALL_RADIUS : ℚ)
      initial_x := ((Int.fdiv g.config.SCREEN_WIDTH 2 : ℤ) : ℚ)
      initial_y := ((Int.fdiv g.config.SCREEN_HEIGHT 2 : ℤ) : ℚ)
      base_speed := ball_speed
      velocity_x := ball.velocity_x * speed_scale
      velocity_y := ball.velocity_y * speed_scale }
    { g with player_paddle := some pp', bot_paddle := some bp', ball := some ball' }
  | _, _, _ => g

/-- One pass of the event loop body in `PongGame.handle_input` (game.py) for
a single event.  `QUIT` makes `handle_input` return `False` at once, leaving
all state untouched.  A `VIDEORESIZE` first replaces the display surface and
the config, then (only while Playing with entities present) resizes the game
objects; the event then falls through the state chain, which ignores it.
The `ResetOracle` feeds `initialize_game_objects`. -/
def PongGame.handle_event (g : PongGame) (e : Event) (o : ResetOracle) :
    PongGame :=
  let g1 := match e with
    | .VIDEORESIZE w h =>
      let g' := { g with
        screen_w := w
        screen_h := h
        config := GameConfig.update_screen_size w h }
      if g'.state = GameState.PLAYING ∧ g'.player_paddle.isSome then
        g'.resize_game_objects
      else g'
    | _ => g
  match g1.state with
  | GameState.MENU =>
    match e with
    | .MOUSEBUTTONDOWN mx my =>
      match g1.menu_buttons.find? (fun bd => bd.1.collidepoint mx my) with
      | some bd =>
        { g1.init_game_objects bd.2 o with state := GameState.PLAYING }
      | none => g1
    | _ => g1
  | GameState.PAUSED =>
    match e with
    | .MOUSEBUTTONDOWN mx my =>
      let resume_hit := match g1.pause_resume_button with
        | some r => r.collidepoint mx my
        | none => false
      let new_game_hit := match g1.pause_new_game_button with
        | some r => r.collidepoint mx my
        | none => false
      if resume_hit then { g1 with state := GameState.PLAYING }
      else if new_game_hit then { g1 with state := GameState.MENU }
      else g1
    | .KEYDOWN Key.K_ESCAPE => { g1 with state := GameState.PLAYING }
    | _ => g1
  | GameState.GAME_OVER =>
    match e with
    | .MOUSEBUTTONDOWN mx my =>
      match g1.play_again_button with
      | some r =>
        -- `if self.play_again_button and ...collidepoint(...)`: a pygame
        -- Rect is falsy when its width or height is 0
        if (r.w ≠ 0 ∧ r.h ≠ 0) ∧ r.collidepoint mx my then
          { g1 with state := GameState.MENU }
        else g1
      | none => g1
    | _ => g1
  | GameState.PLAYING =>
    match e with
    | .KEYDOWN k =>
      if k = Key.K_w ∨ k = Key.K_UP then
        { g1 with keys_pressed := { g1.keys_pressed with up := true } }
      else if k = Key.K_s ∨ k = Key.K_DOWN then
        { g1 with keys_pressed := { g1.keys_pressed with down := true } }
      else if k = Key.K_ESCAPE then { g1 with state := GameState.PAUSED }
      else g1
    | .KEYUP k =>
      if k = Key.K_w ∨ k = Key.K_UP then
        { g1 with keys_pressed := { g1.keys_pressed with up := false } }
      else if k = Key.K_s ∨ k = Key.K_DOWN then
        { g1 with keys_pressed := { g1.keys_pressed with down := false } }
      else g1
    | _ => g1

/-- The winner check at the end of `PongGame.update` (game.py):
`winner = self.score_manager.check_winner(); if winner: record it and move
to GameOver`. -/
def PongGame.apply_winner_check (g : PongGame) : PongGame :=
  match g.score_manager.check_winner with
  | some w => { g with winner := some w, state := GameState.GAME_OVER }
  | none => g

/-- The movement / collision-resolution / scoring portion of one Playing
tick of `PongGame.update` (game.py), with the entities already unpacked from
their `Option` fields: move the player paddle by the derived direction, run
the bot controller, integrate the ball, bounce off a paddle only when the
ball also moves toward it, then handle scoring (park the ball at the screen
center with zero velocity, start the wait timer, remember the scorer). -/
def PongGame.playing_entities (g : PongGame) (now : ℤ) (bo : BotOracle)
    (pp0 bp0 : Paddle) (ball0 : Ball) (bc0 : BotController) : PongGame :=
  let pp := pp0.move (playerDirection g.keys_pressed) g.config.SCREEN_HEIGHT
  let bcbp := bc0.update bp0 ball0 g.config.SCREEN_HEIGHT bo
  let ball1 := ball0.move g.config.SCREEN_WIDTH g.config.SCREEN_HEIGHT
  let ball2 := if ball1.check_paddle_collision pp ∧ ball1.velocity_x < 0
               then ball1.bounce_off_paddle pp else ball1
  let ball3 := if ball2.check_paddle_collision bcbp.2 ∧ ball2.velocity_x > 0
               then ball2.bounce_off_paddle bcbp.2 else ball2
  let scored : ScoreManager × Option Side × Ball × Bool × ℤ :=
    if ball3.x - ball3.radius < 0 then
      (g.score_manager.increment_bot_score, some Side.bot,
       { ball3 with x := ((Int.fdiv g.config.SCREEN_WIDTH 2 : ℤ) : ℚ),
                    y := ((Int.fdiv g.config.SCREEN_HEIGHT 2 : ℤ) : ℚ),
                    velocity_x := 0, velocity_y := 0 },
       true, now)
    else if ball3.x + ball3.radius > (g.config.SCREEN_WIDTH : ℚ) then
      (g.score_manager.increment_player_score, some Side.player,
       { ball3 with x := ((Int.fdiv g.config.SCREEN_WIDTH 2 : ℤ) : ℚ),
                    y := ((Int.fdiv g.config.SCREEN_HEIGHT 2 : ℤ) : ℚ),
                    velocity_x := 0, velocity_y := 0 },
       true, now)
    else
      (g.score_manager, g.last_scorer, ball3, g.waiting_for_reset,
       g.reset_timer)
  { g with
    player_paddle := some pp
    bot_paddle := some bcbp.2
    bot_controller := some bcbp.1
    ball := some scored.2.2.1
    score_manager := scored.1
    last_scorer := scored.2.1
    waiting_for_reset := scored.2.2.2.1
    reset_timer := scored.2.2.2.2 }

/-- A full Playing tick: the entity step followed by the winner check. -/
def PongGame.playing_tick (g : PongGame) (now : ℤ) (bo : BotOracle)
    (pp0 bp0 : Paddle) (ball0 : Ball) (bc0 : BotController) : PongGame :=
  (g.playing_entities now bo pp0 bp0 ball0 bc0).apply_winner_check

/-- `PongGame.update` (game.py): the per-tick simulation step.
`now` stands for `pygame.time.get_ticks()`; the `none` result models the
`AttributeError` Python would raise when an entity that the taken branch
dereferences is still `None`. -/
def PongGame.update (g : PongGame) (now : ℤ) (bo : BotOracle)
    (ro : ResetOracle) : Option PongGame :=
  if g.state ≠ GameState.PLAYING then some g
  else if g.waiting_for_reset then
    if now - g.reset_timer ≥ GameConfig.RESET_DELAY_MS then
      let dt : Option (ℤ × ℚ) :=
        if g.last_scorer = some Side.bot then
          -- the player lost: the ball flies to the player paddle
          g.player_paddle.map (fun pp => (-1, pp.y + pp.height / 2))
        else
          -- the bot lost: the ball flies to the bot paddle
          g.bot_paddle.map (fun bp => (1, bp.y + bp.height / 2))
      match dt, g.ball with
      | some dt, some ball =>
        some { g with
          ball := some (ball.reset_position dt.1 (some dt.2) ro),
          waiting_for_reset := false }
      | _, _ => none
    else some g
  else
    match g.player_paddle, g.bot_paddle, g.ball, g.bot_controller with
    | some pp0, some bp0, some ball0, some bc0 =>
      some (g.playing_tick now bo pp0 bp0 ball0 bc0)
    | _, _, _, _ => none

/-- Case analysis for the winner check: either no winner was found and the
game is untouched, or the state moved to GameOver with the winner recorded. -/
theorem apply_winner_check_spec (g : PongGame) :
    (g.apply_winner_check.state = g.state ∧
     g.apply_winner_check.winner = g.winner ∧
     g.apply_winner_check.score_manager = g.score_manager) ∨
    (g.apply_winner_check.state = GameState.GAME_OVER ∧
     g.apply_winner_check.score_manager.check_winner.isSome ∧
     g.apply_winner_check.winner = g.apply_winner_check.score_manager.check_winner) := by
  rcases hw : g.score_manager.check_winner with _ | w
  · left; simp [PongGame.apply_winner_check, hw]
  · right
    refine ⟨?_, ?_, ?_⟩ <;> simp [PongGame.apply_winner_check, hw]

/-- The winner check never touches the player paddle. -/
theorem apply_winner_check_player (g : PongGame) :
    g.apply_winner_check.player_paddle = g.player_paddle := by
  rcases hw : g.score_manager.check_winner with _ | w <;>
    simp [PongGame.apply_winner_check, hw]

/-- A Playing tick either keeps the state (and pending winner label), or
moves to GameOver with the winner recorded from the score tracker. -/
theorem playing_tick_state (g : PongGame) (now : ℤ) (bo : BotOracle)
    (pp0 bp0 : Paddle) (ball0 : Ball) (bc0 : BotController) :
    ((g.playing_tick now bo pp0 bp0 ball0 bc0).state = g.state ∧
     (g.playing_tick now bo pp0 bp0 ball0 bc0).winner = g.winner) ∨
    ((g.playing_tick now bo pp0 bp0 ball0 bc0).state = GameState.GAME_OVER ∧
     (g.playing_tick now bo pp0 bp0 ball0 bc0).score_manager.check_winner.isSome ∧
     (g.playing_tick now bo pp0 bp0 ball0 bc0).winner =
       (g.playing_tick now bo pp0 bp0 ball0 bc0).score_manager.check_winner) := by
  rw [PongGame.playing_tick]
  rcases apply_winner_check_spec (g.playing_entities now bo pp0 bp0 ball0 bc0)
    with ⟨h1, h2, _⟩ | hr
  · left
    constructor
    · rw [h1]; rfl
    · rw [h2]; rfl
  · right; exact hr

/-- `resize_game_objects` never touches the session state. -/
theorem resize_state (g : PongGame) :
    g.resize_game_objects.state = g.state := by
  rcases h1 : g.player_paddle with _ | pp <;>
    rcases h2 : g.bot_paddle with _ | bp <;>
      rcases h3 : g.ball with _ | b <;>
        simp [PongGame.resize_game_objects, h1, h2, h3]

/-- A generic mid-match entity set and game at the default 800×600 viewport,
used by the concrete evaluations below.  The player paddle sits at y = 240,
i.e. at y-ratio 0.4 of the 600-pixel-high viewport. -/
def basePlayer : Paddle := Paddle.init 30 240 15 100 7

def baseBot : Paddle := Paddle.init 755 250 15 100 2.2

def baseBall : Ball :=
  { Ball.init 400 300 8 3.5 with velocity_x := 3.5, velocity_y := 1 }

def baseBotCtl : BotController :=
  { BotController.initBot Difficulty.EASY with reaction_delay := 5 }

def baseGame : PongGame :=
  { config := GameConfig.update_screen_size 800 600
    screen_w := 800
    screen_h := 600
    state := GameState.PLAYING
    score_manager := ScoreManager.initScores GameConfig.WINNING_SCORE
    player_paddle := some basePlayer
    bot_paddle := some baseBot
    ball := some baseBall
    bot_controller := some baseBotCtl
    keys_pressed := ⟨false, false⟩
    current_difficulty := some Difficulty.EASY
    menu_buttons := []
    pause_resume_button := none
    pause_new_game_button := none
    play_again_button := none
    winner := none
    reset_timer := 0
    waiting_for_reset := false
    last_scorer := none }

def oRst : ResetOracle := ⟨1, 1, 0.75⟩

def oBot : BotOracle := ⟨0.5, 2, 7⟩

/-- C3 (code bug): resizing the viewport from 800×600 to 1600×1200 while
Playing with the player paddle at y = 240 (y-ratio 0.4 of the old 600-high
viewport) leaves `player_paddle.y` at 240 instead of the claimed
proportional 0.4 × 1200 = 480: `resize_game_objects` computes the y-ratio
against the screen height that the handler already updated to 1200. -/
theorem resize_keeps_absolute_player_y :
    ((baseGame.handle_event (Event.VIDEORESIZE 1600 1200) oRst).player_paddle.map
      Paddle.y) = some 240 ∧
    (0.4 : ℚ) * 1200 = 480 ∧ (240 : ℚ) ≠ 480 := by
  refine ⟨?_, by norm_num, by norm_num⟩
  norm_num [PongGame.handle_event, PongGame.resize_game_objects, baseGame,
    basePlayer, baseBot, baseBall, Paddle.init, Ball.init,
    GameConfig.update_screen_size, GameConfig.MIN_WIDTH, GameConfig.MIN_HEIGHT]

/-- C4 counterexample: with both 'up' and 'down' held, the `if/elif` chain in
`PongGame.update` computes direction -1 ('up' wins), not the claimed
cancelling 0. -/
theorem player_direction_both_keys_counterexample :
    playerDirection ⟨true, true⟩ = -1 ∧ playerDirection ⟨true, true⟩ ≠ 0 := by
  constructor <;> norm_num [playerDirection]

/-- C4 (amended): on every Playing tick that is not in the post-score wait,
the player direction is derived from the pressed-keys set as: 'up' held
→ -1 (also when both keys are held: 'up' takes precedence, there is no
cancellation), otherwise 'down' held → +1, otherwise 0 — and the player
paddle is moved with exactly that direction. -/
theorem player_input_moves_paddle (g : PongGame) (now : ℤ) (bo : BotOracle)
    (ro : ResetOracle) (pp : Paddle) (bp : Paddle) (ball : Ball)
    (bc : BotController)
    (hs : g.state = GameState.PLAYING) (hw : g.waiting_for_reset = false)
    (hpp : g.player_paddle = some pp) (hbp : g.bot_paddle = some bp)
    (hb : g.ball = some ball) (hbc : g.bot_controller = some bc) :
    (g.keys_pressed.up = true → playerDirection g.keys_pressed = -1) ∧
    (g.keys_pressed.up = false → g.keys_pressed.down = true →
      playerDirection g.keys_pressed = 1) ∧
    (g.keys_pressed.up = false → g.keys_pressed.down = false →
      playerDirection g.keys_pressed = 0) ∧
    (g.update now bo ro).map (fun g' => g'.player_paddle) =
      some (some (pp.move (playerDirection g.keys_pressed)
        g.config.SCREEN_HEIGHT)) := by
  refine ⟨?_, ?_, ?_, ?_⟩
  · intro h; simp [playerDirection, h]
  · intro h1 h2; simp [playerDirection, h1, h2]
  · intro h1 h2; simp [playerDirection, h1, h2]
  · simp only [PongGame.update, hs, hw, hpp, hbp, hb, hbc, ne_eq,
      not_true_eq_false, if_false, Bool.false_eq_true, Option.map_some']
    rw [PongGame.playing_tick, apply_winner_check_player]
    rfl

def c4Game : PongGame := { baseGame with keys_pressed := ⟨true, true⟩ }

theorem player_input_moves_paddle_witness :
    (c4Game.update 100 oBot oRst).map (fun g' => g'.player_paddle) =
      some (some (basePlayer.move (playerDirection c4Game.keys_pressed)
        c4Game.config.SCREEN_HEIGHT)) := by
  exact (player_input_moves_paddle c4Game 100 oBot oRst basePlayer baseBot
    baseBall baseBotCtl rfl rfl rfl rfl rfl rfl).2.2.2

/-- C5: on a Playing tick with the post-score wait flag set: while fewer than
2000 ms (= `RESET_DELAY_MS`) have elapsed since the wait began, the update
returns the game completely unchanged — no entity is moved, so the ball
(parked at home with zero velocity by the scoring code) stays put.  Once at
least 2000 ms have elapsed, the ball is relaunched via `reset_position`
aimed at the losing side's current paddle center and directed toward the
side that did not just score (`velocity_x = -base_speed` toward the player
when the bot scored, `+base_speed` toward the bot otherwise), and the wait
flag is cleared. -/
theorem post_score_wait_step (g : PongGame) (now : ℤ) (bo : BotOracle)
    (ro : ResetOracle) (pp bp : Paddle) (ball : Ball)
    (hs : g.state = GameState.PLAYING) (hw : g.waiting_for_reset = true)
    (hpp : g.player_paddle = some pp) (hbp : g.bot_paddle = some bp)
    (hb : g.ball = some ball) :
    (now - g.reset_timer < 2000 → g.update now bo ro = some g) ∧
    (2000 ≤ now - g.reset_timer →
      (g.last_scorer = some Side.bot →
        g.update now bo ro = some { g with
          ball := some (ball.reset_position (-1) (some (pp.y + pp.height / 2)) ro)
          waiting_for_reset := false } ∧
        (ball.reset_position (-1) (some (pp.y + pp.height / 2)) ro).velocity_x =
          -ball.base_speed) ∧
      (g.last_scorer ≠ some Side.bot →
        g.update now bo ro = some { g with
          ball := some (ball.reset_position 1 (some (bp.y + bp.height / 2)) ro)
          waiting_for_reset := false } ∧
        (ball.reset_position 1 (some (bp.y + bp.height / 2)) ro).velocity_x =
          ball.base_speed)) := by
  constructor
  · intro h
    have hnot : ¬ (now - g.reset_timer ≥ GameConfig.RESET_DELAY_MS) := by
      simp only [GameConfig.RESET_DELAY_MS]; omega
    simp [PongGame.update, hs, hw, hnot]
  · intro h
    have hge : now - g.reset_timer ≥ GameConfig.RESET_DELAY_MS := by
      simp only [GameConfig.RESET_DELAY_MS]; omega
    constructor
    · intro hls
      constructor
      · simp [PongGame.update, hs, hw, hge, hls, hpp, hb]
      · simp [Ball.reset_position]
    · intro hls
      constructor
      · simp [PongGame.update, hs, hw, hge, hls, hbp, hb]
      · simp [Ball.reset_position]

def c5Game : PongGame := { baseGame with
  waiting_for_reset := true
  last_scorer := some Side.bot }

theorem post_score_wait_step_witness :
    c5Game.update 1000 oBot oRst = some c5Game := by
  exact (post_score_wait_step c5Game 1000 oBot oRst basePlayer baseBot baseBall
    rfl rfl rfl rfl rfl).1 (by norm_num [c5Game, baseGame])

/-- C7: single-step characterization of the session state machine, valid for
every input event and every tick (hence for every sequence of them).  From
Menu the only state change is to Playing and only on a mouse click hitting a
menu difficulty button; from Playing an input event can change state only to
Paused and only via the escape key, and a tick can change state only to
GameOver and only when the score tracker reports a winner (then recorded);
from GameOver the only state change is back to Menu and only via a click on
the (nonempty) play-again button — in particular never directly to Playing;
a tick in any state other than Playing changes nothing at all. -/
theorem session_state_transitions (g : PongGame) (e : Event) (o : ResetOracle)
    (now : ℤ) (bo : BotOracle) (ro : ResetOracle) :
    (g.state = GameState.MENU →
      ((g.handle_event e o).state = GameState.MENU ∨
       ((g.handle_event e o).state = GameState.PLAYING ∧
        ∃ mx my bd, e = Event.MOUSEBUTTONDOWN mx my ∧ bd ∈ g.menu_buttons ∧
          bd.1.collidepoint mx my = true))) ∧
    (g.state = GameState.PLAYING →
      ((g.handle_event e o).state = GameState.PLAYING ∨
       ((g.handle_event e o).state = GameState.PAUSED ∧
        e = Event.KEYDOWN Key.K_ESCAPE))) ∧
    (g.state = GameState.PLAYING → ∀ g', g.update now bo ro = some g' →
      (g'.state = GameState.PLAYING ∨
       (g'.state = GameState.GAME_OVER ∧ g'.score_manager.check_winner.isSome ∧
        g'.winner = g'.score_manager.check_winner))) ∧
    (g.state = GameState.GAME_OVER →
      ((g.handle_event e o).state = GameState.GAME_OVER ∨
       ((g.handle_event e o).state = GameState.MENU ∧
        ∃ mx my r, e = Event.MOUSEBUTTONDOWN mx my ∧
          g.play_again_button = some r ∧ r.collidepoint mx my = true))) ∧
    (g.state ≠ GameState.PLAYING → g.update now bo ro = some g) := by
  refine ⟨?_, ?_, ?_, ?_, ?_⟩
  · -- Menu, input events
    intro h
    cases e with
    | QUIT => left; simp [PongGame.handle_event, h]
    | VIDEORESIZE w hh => left; simp [PongGame.handle_event, h]
    | MOUSEBUTTONDOWN mx my =>
      rcases hf : g.menu_buttons.find? (fun bd => bd.1.collidepoint mx my)
        with _ | bd
      · left; simp [PongGame.handle_event, h, hf]
      · right
        refine ⟨?_, mx, my, bd, rfl, List.mem_of_find?_eq_some hf, ?_⟩
        · simp [PongGame.handle_event, h, hf]
        · simpa using List.find?_some hf
    | KEYDOWN k => left; simp [PongGame.handle_event, h]
    | KEYUP k => left; simp [PongGame.handle_event, h]
  · -- Playing, input events
    intro h
    cases e with
    | QUIT => left; simp [PongGame.handle_event, h]
    | VIDEORESIZE w hh =>
      left
      simp only [PongGame.handle_event]
      split_ifs with hc
      · simp [resize_state, h]
      · simp [h]
    | MOUSEBUTTONDOWN mx my => left; simp [PongGame.handle_event, h]
    | KEYDOWN k => cases k <;> simp [PongGame.handle_event, h]
    | KEYUP k => cases k <;> simp [PongGame.handle_event, h]
  · -- Playing, ticks
    intro h g' hup
    rw [PongGame.update] at hup
    rw [if_neg (by simp [h])] at hup
    by_cases hwf : g.waiting_for_reset
    · rw [if_pos hwf] at hup
      by_cases ht : now - g.reset_timer ≥ GameConfig.RESET_DELAY_MS
      · rw [if_pos ht] at hup
        by_cases hls : g.last_scorer = some Side.bot
        · rw [if_pos hls] at hup
          rcases h1 : g.player_paddle with _ | pp <;> rw [h1] at hup <;>
            rcases h3 : g.ball with _ | ball <;> rw [h3] at hup <;>
              simp only [Option.map_some', Option.map_none'] at hup
          all_goals try exact Option.noConfusion hup
          rw [Option.some_inj] at hup
          subst hup
          left; exact h
        · rw [if_neg hls] at hup
          rcases h2 : g.bot_paddle with _ | bp <;> rw [h2] at hup <;>
            rcases h3 : g.ball with _ | ball <;> rw [h3] at hup <;>
              simp only [Option.map_some', Option.map_none'] at hup
          all_goals try exact Option.noConfusion hup
          rw [Option.some_inj] at hup
          subst hup
          left; exact h
      · rw [if_neg ht] at hup
        rw [Option.some_inj] at hup
        subst hup
        left; exact h
    · rw [if_neg hwf] at hup
      rcases h1 : g.player_paddle with _ | pp <;> rw [h1] at hup <;>
        rcases h2 : g.bot_paddle with _ | bp <;> rw [h2] at hup <;>
          rcases h3 : g.ball with _ | ball <;> rw [h3] at hup <;>
            rcases h4 : g.bot_controller with _ | bc <;> rw [h4] at hup <;>
              simp only [] at hup
      all_goals try exact Option.noConfusion hup
      rw [Option.some_inj] at hup
      subst hup
      rcases playing_tick_state g now bo pp bp ball bc with ⟨hst, _⟩ | ⟨hst, hw2, hw3⟩
      · left; rw [hst]; exact h
      · right; exact ⟨hst, hw2, hw3⟩
  · -- GameOver, input events
    intro h
    cases e with
    | QUIT => left; simp [PongGame.handle_event, h]
    | VIDEORESIZE w hh => left; simp [PongGame.handle_event, h]
    | MOUSEBUTTONDOWN mx my =>
      rcases hr : g.play_again_button with _ | r
      · left; simp [PongGame.handle_event, h, hr]
      · by_cases hc : (r.w ≠ 0 ∧ r.h ≠ 0) ∧ r.collidepoint mx my = true
        · right
          refine ⟨?_, mx, my, r, rfl, rfl, hc.2⟩
          simp [PongGame.handle_event, h, hr, hc]
        · left; simp [PongGame.handle_event, h, hr, hc]
    | KEYDOWN k => left; simp [PongGame.handle_event, h]
    | KEYUP k => left; simp [PongGame.handle_event, h]
  · -- ticks outside Playing
    intro h
    rw [PongGame.update, if_pos h]

def c7MenuButton : PgRect := ⟨100, 100, 200, 60⟩

def c7Menu : PongGame := { baseGame with
  state := GameState.MENU
  menu_buttons := [(c7MenuButton, Difficulty.EASY)] }

theorem session_state_transitions_witness :
    (c7Menu.handle_event (Event.MOUSEBUTTONDOWN 150 120) oRst).state =
      GameState.PLAYING := by
  have h := (session_state_transitions c7Menu (Event.MOUSEBUTTONDOWN 150 120)
    oRst 0 oBot oRst).1 rfl
  rcases h with h | h
  · exact absurd h (by
      simp [PongGame.handle_event, c7Menu, baseGame, c7MenuButton,
        PgRect.collidepoint, List.find?])
  · exact h.1
